import Mathlib

/-!
Shallow embedding of the conative-gating decision pipeline: the policy
oracle (rule evaluation over proposals), the contract decision layer
(verdict and refusal derivation), the regression-comparison harness and
the red-team scoring, translated from the Rust sources
(src/oracle/src/lib.rs, src/contract/src/lib.rs).

Modelling conventions:
- Rust String values are Lean String values; operations work on the
  underlying character list (String.data).  Byte positions (Rust string
  indices) are computed from Char.utf8Size, so that the byte-slicing
  behaviour of Rust range indexing, including its panic on a non
  character-boundary index, is represented exactly: a slice that would
  panic is modelled as Option.none.
- Rust str::to_lowercase is modelled character-wise with Char.toLower
  (ASCII case folding); all concrete inputs used below only contain
  characters on which the two agree (ASCII letters and characters that
  are their own lowercase).
- Rust regex compilation and matching (the regex crate) is kept abstract:
  a RegexEngine provides compile, which either fails (regex::Error,
  carried as its message string) or yields a matcher.  None of the
  verified properties depend on actual regex semantics; concrete engines
  used in witnesses are stated next to the facts about the real regexes
  they reflect.
- Uuid values are modelled as Nat, f32/f64 configuration scalars as Rat.
  Wall-clock fields (timestamps, duration_us) and freshly generated ids
  are outside the embedding and are omitted from the modelled structures.
- A computation that can panic returns Option (none = panic); fallible
  Rust functions returning Result are modelled with Except.
-/

-- ===== Core oracle types (src/oracle/src/lib.rs) =====

inductive ViolationType where
  | forbiddenLanguage (language : String) (file : String) (contextText : String)
  | forbiddenToolchain (tool : String) (missing : String)
  | securityViolation (description : String)
  | forbiddenPattern (patternName : String) (file : String)
  deriving DecidableEq, Repr

inductive ConcernType where
  | verbositySmell
  | patternDeviation
  | unusualStructure
  | tier2Language (language : String)
  deriving DecidableEq, Repr

inductive PolicyVerdict where
  | compliant
  | hardViolation (v : ViolationType)
  | softConcern (c : ConcernType)
  deriving DecidableEq, Repr

inductive ActionType where
  | createFile (path : String)
  | modifyFile (path : String)
  | deleteFile (path : String)
  | executeCommand (command : String)
  deriving DecidableEq, Repr

structure Proposal where
  id : Nat
  action_type : ActionType
  content : String
  files_affected : List String
  llm_confidence : Rat
  deriving DecidableEq, Repr

structure LanguageConfig where
  name : String
  extensions : List String
  markers : List String
  deriving DecidableEq, Repr

structure ExceptionRule where
  language : String
  allowed_paths : List String
  reason : String
  deriving DecidableEq, Repr

structure LanguagePolicy where
  tier1 : List LanguageConfig
  tier2 : List LanguageConfig
  forbidden : List LanguageConfig
  exceptions : List ExceptionRule
  deriving DecidableEq, Repr

structure ToolchainRule where
  tool : String
  tool_markers : List String
  requires : String
  requires_markers : List String
  deriving DecidableEq, Repr

structure ToolchainPolicy where
  rules : List ToolchainRule
  deriving DecidableEq, Repr

structure ForbiddenPattern where
  name : String
  regex : String
  file_types : List String
  reason : String
  deriving DecidableEq, Repr

structure PatternPolicy where
  forbidden_patterns : List ForbiddenPattern
  deriving DecidableEq, Repr

structure EnforcementConfig where
  slm_weight : Rat
  escalate_threshold : Rat
  block_threshold : Rat
  deriving DecidableEq, Repr

structure Policy where
  name : String
  languages : LanguagePolicy
  toolchain : ToolchainPolicy
  patterns : PatternPolicy
  enforcement : EnforcementConfig
  deriving DecidableEq, Repr

inductive Severity where
  | critical
  | high
  | medium
  | low
  deriving DecidableEq, Repr

structure Violation where
  rule : String
  violation_type : ViolationType
  severity : Severity
  deriving DecidableEq, Repr

structure Concern where
  rule : String
  concern_type : ConcernType
  suggestion : String
  deriving DecidableEq, Repr

structure OracleEvaluation where
  proposal_id : Nat
  verdict : PolicyVerdict
  rules_checked : List String
  violations : List Violation
  concerns : List Concern
  deriving DecidableEq, Repr

inductive OracleError where
  | invalidProposal (msg : String)
  | policyParseError (msg : String)
  | ioError (msg : String)
  | regexError (msg : String)
  deriving DecidableEq, Repr

-- ===== String helpers over character lists =====

/-- Character-wise lowercase of a character list, modelling
str::to_lowercase (ASCII case folding). -/
def toLowerCL (l : List Char) : List Char := l.map Char.toLower

/-- Substring containment on character lists, modelling str::contains on
valid UTF-8 strings (byte-level substring search coincides with
character-level infix search because UTF-8 is self-synchronising). -/
def containsSub (hay pat : List Char) : Bool :=
  pat.isPrefixOf hay ||
    (match hay with
     | [] => false
     | _ :: t => containsSub t pat)

/-- Byte length of a character list under UTF-8, modelling str::len. -/
def byteLen (l : List Char) : Nat := (l.map Char.utf8Size).sum

/-- Byte index of the first occurrence of pat in hay, modelling str::find. -/
def findBytePos (hay pat : List Char) : Option Nat :=
  if pat.isPrefixOf hay then some 0
  else
    match hay with
    | [] => none
    | c :: t => (findBytePos t pat).map (fun p => c.utf8Size + p)

/-- Drop the first n bytes of a character list; none when n is not a
character boundary or exceeds the byte length (a Rust slice there
panics). -/
def dropBytes : List Char → Nat → Option (List Char)
  | l, 0 => some l
  | [], _ + 1 => none
  | c :: t, n + 1 =>
    if _h : c.utf8Size ≤ n + 1 then dropBytes t (n + 1 - c.utf8Size) else none

/-- Take the first n bytes of a character list; none when n is not a
character boundary or exceeds the byte length. -/
def takeBytes : List Char → Nat → Option (List Char)
  | _, 0 => some []
  | [], _ + 1 => none
  | c :: t, n + 1 =>
    if _h : c.utf8Size ≤ n + 1 then
      (takeBytes t (n + 1 - c.utf8Size)).map (fun r => c :: r)
    else none

/-- Byte-range slice s[lo..hi] of Rust, modelling the panic on an
out-of-range or non-boundary index as none. -/
def byteSlice (l : List Char) (lo hi : Nat) : Option (List Char) :=
  if lo ≤ hi then (dropBytes l lo).bind (fun t => takeBytes t (hi - lo))
  else none

-- ===== Oracle helper methods =====

/-- Oracle::content_contains_language: any marker occurs in the lowercased
content (each marker itself lowercased). -/
def content_contains_language (content : String) (lang : LanguageConfig) : Bool :=
  lang.markers.any (fun m => containsSub (toLowerCL content.data) (toLowerCL m.data))

/-- Oracle::file_matches_language: the lowercased file name ends with some
lowercased extension. -/
def file_matches_language (file : String) (lang : LanguageConfig) : Bool :=
  lang.extensions.any (fun ext => (toLowerCL ext.data).isSuffixOf (toLowerCL file.data))

/-- Oracle::content_has_markers. -/
def content_has_markers (content : String) (markers : List String) : Bool :=
  markers.any (fun m => containsSub (toLowerCL content.data) (toLowerCL m.data))

/-- Oracle::files_have_markers. -/
def files_have_markers (files : List String) (markers : List String) : Bool :=
  files.any (fun f => markers.any (fun m => containsSub (toLowerCL f.data) (toLowerCL m.data)))

/-- Oracle::check_exception: some exception rule for the same language
(case-insensitively) has an allowed path occurring as a substring of some
given file (the path comparison is case-sensitive in the source). -/
def check_exception (policy : Policy) (files : List String) (language : String) : Bool :=
  policy.languages.exceptions.any (fun exc =>
    decide (toLowerCL exc.language.data = toLowerCL language.data) &&
      files.any (fun file => exc.allowed_paths.any (fun allowed => containsSub file.data allowed.data)))

/-- Oracle::extract_context: for the first marker found in the lowercased
content, slice the original content from 30 bytes before the match to 30
bytes after the end of the marker (clamped to the content byte length)
and wrap it in ellipses; empty string when no marker is found.  The
slice is a Rust byte-range index and panics (none) when either endpoint
is not a character boundary. -/
def extract_context (content : String) (markers : List String) : Option String :=
  match markers with
  | [] => some ""
  | m :: rest =>
    match findBytePos (toLowerCL content.data) (toLowerCL m.data) with
    | some pos =>
      (byteSlice content.data (pos - 30)
          (min (pos + byteLen m.data + 30) (byteLen content.data))).map
        (fun l => "..." ++ String.mk l ++ "...")
    | none => extract_context content rest

-- ===== Regex engine abstraction =====

/-- Abstract interface of the regex crate as used by the oracle:
compilation either fails with an error message (regex::Error) or yields a
matcher on content strings.  Oracle::check_proposal compiles each pattern
rule anew on every call. -/
structure RegexEngine where
  compile : String → Except String (String → Bool)

-- ===== Oracle::check_proposal, split into its scan blocks =====

/-- Body of the forbidden-language content scan loop, over the remaining
forbidden-language rules. -/
def contentGo (policy : Policy) (prop : Proposal) : List LanguageConfig → Option (List Violation)
  | [] => some []
  | lang :: rest =>
    if content_contains_language prop.content lang then
      if check_exception policy prop.files_affected lang.name then contentGo policy prop rest
      else
        match extract_context prop.content lang.markers with
        | none => none
        | some ctx =>
          (contentGo policy prop rest).map (fun vs =>
            { rule := "forbidden_language:" ++ lang.name
              violation_type := ViolationType.forbiddenLanguage lang.name
                  ((prop.files_affected.head?).getD "") ctx
              severity := Severity.critical } :: vs)
    else contentGo policy prop rest

/-- First loop of Oracle::check_proposal: forbidden-language content scan,
in forbidden-list order.  Building the ForbiddenLanguage violation calls
Oracle::extract_context, which can panic (none) on multi-byte content. -/
def contentLanguageScan (policy : Policy) (prop : Proposal) : Option (List Violation) :=
  contentGo policy prop policy.languages.forbidden

/-- Second loop of Oracle::check_proposal: forbidden-language file-path
scan, outer loop over affected files, inner loop over forbidden rules. -/
def filePathScan (policy : Policy) (prop : Proposal) : List Violation :=
  prop.files_affected.flatMap (fun file =>
    policy.languages.forbidden.filterMap (fun lang =>
      if file_matches_language file lang &&
          !check_exception policy [file] lang.name then
        some
          { rule := "forbidden_file_extension:" ++ lang.name
            violation_type := ViolationType.forbiddenLanguage lang.name file
                ("File extension matches forbidden language: " ++ lang.name)
            severity := Severity.critical }
      else none))

/-- Third loop of Oracle::check_proposal: toolchain co-requirement scan. -/
def toolchainScan (policy : Policy) (prop : Proposal) : List Violation :=
  policy.toolchain.rules.filterMap (fun rule =>
    let has_tool := content_has_markers prop.content rule.tool_markers ||
        files_have_markers prop.files_affected rule.tool_markers
    let has_requires := content_has_markers prop.content rule.requires_markers ||
        files_have_markers prop.files_affected rule.requires_markers
    if has_tool && !has_requires then
      some
        { rule := "toolchain:" ++ rule.tool ++ ":" ++ rule.requires
          violation_type := ViolationType.forbiddenToolchain rule.tool rule.requires
          severity := Severity.high }
    else none)

/-- Fourth loop of Oracle::check_proposal: forbidden-pattern scan.  Each
regex is compiled inside the loop; the first compilation failure aborts
check_proposal with that error (the Rust question-mark operator). -/
def patternGo (engine : RegexEngine) (prop : Proposal) :
    List ForbiddenPattern → Except String (List Violation)
  | [] => Except.ok []
  | p :: rest =>
    match engine.compile p.regex with
    | Except.error e => Except.error e
    | Except.ok isMatch =>
      if isMatch prop.content then
        (patternGo engine prop rest).map (fun vs =>
          { rule := "pattern:" ++ p.name
            violation_type := ViolationType.forbiddenPattern p.name
                ((prop.files_affected.head?).getD "")
            severity := Severity.high } :: vs)
      else patternGo engine prop rest

/-- Fourth loop of Oracle::check_proposal, applied to the policy pattern
list. -/
def patternScan (engine : RegexEngine) (policy : Policy) (prop : Proposal) :
    Except String (List Violation) :=
  patternGo engine prop policy.patterns.forbidden_patterns

/-- Fifth loop of Oracle::check_proposal: tier-2 language scan, producing
concerns. -/
def tier2Scan (policy : Policy) (prop : Proposal) : List Concern :=
  policy.languages.tier2.filterMap (fun lang =>
    if content_contains_language prop.content lang then
      some
        { rule := "tier2_language:" ++ lang.name
          concern_type := ConcernType.tier2Language lang.name
          suggestion := "Consider using a Tier 1 language instead of " ++ lang.name }
    else none)

/-- Rule identifiers pushed by Oracle::check_proposal, in push order. -/
def rulesCheckedList : List String :=
  ["forbidden_languages_content", "forbidden_languages_files", "toolchain_rules",
   "forbidden_patterns", "tier2_languages"]

/-- Oracle::check_proposal.  An outer none models a panic (byte slicing in
extract_context); an inner Except.error models the Err return of the
regex compilation failure.  The verdict takes the first violation, else
the first concern, else Compliant, and the full violation/concern lists
are returned. -/
def check_proposal (engine : RegexEngine) (policy : Policy) (prop : Proposal) :
    Option (Except OracleError OracleEvaluation) :=
  match contentLanguageScan policy prop with
  | none => none
  | some cv =>
    match patternScan engine policy prop with
    | Except.error e => some (Except.error (OracleError.regexError e))
    | Except.ok patv =>
      let violations := cv ++ filePathScan policy prop ++ toolchainScan policy prop ++ patv
      let concerns := tier2Scan policy prop
      let verdict :=
        match violations.head? with
        | some v => PolicyVerdict.hardViolation v.violation_type
        | none =>
          match concerns.head? with
          | some c => PolicyVerdict.softConcern c.concern_type
          | none => PolicyVerdict.compliant
      some (Except.ok
        { proposal_id := prop.id
          verdict := verdict
          rules_checked := rulesCheckedList
          violations := violations
          concerns := concerns })

-- ===== Policy::rsr_default =====

/-- Regex string of the hardcoded_secrets rule of the default policy
(braces and apostrophes written as hex escapes). -/
def secretsRegexText : String :=
  "(?i)(password|secret|api_key)\\s*=\\s*[\"\x27][^\"\x27]\x7b8,\x7d[\"\x27]"

/-- Policy::rsr_default: the built-in RSR default policy. -/
def rsr_default : Policy :=
  { name := "RSR Default Policy"
    languages :=
      { tier1 :=
          [ { name := "rust", extensions := [".rs"],
              markers := ["fn main", "impl ", "pub fn"] },
            { name := "elixir", extensions := [".ex", ".exs"],
              markers := ["defmodule", "def "] },
            { name := "zig", extensions := [".zig"], markers := ["const std"] },
            { name := "ada", extensions := [".adb", ".ads"],
              markers := ["procedure", "package"] },
            { name := "haskell", extensions := [".hs"], markers := ["module "] },
            { name := "rescript", extensions := [".res", ".resi"],
              markers := ["@react.component"] } ]
        tier2 :=
          [ { name := "nickel", extensions := [".ncl"], markers := [] },
            { name := "racket", extensions := [".rkt"], markers := ["#lang"] } ]
        forbidden :=
          [ { name := "typescript", extensions := [".ts", ".tsx"],
              markers := [": string", ": number", "interface "] },
            { name := "python", extensions := [".py"],
              markers := ["import ", "def "] },
            { name := "go", extensions := [".go"],
              markers := ["package main", "func "] },
            { name := "java", extensions := [".java"],
              markers := ["public class"] } ]
        exceptions :=
          [ { language := "python", allowed_paths := ["salt/", "training/"],
              reason := "Python allowed for Salt configs and ML training" } ] }
    toolchain :=
      { rules :=
          [ { tool := "npm", tool_markers := ["package.json", "npm install"],
              requires := "deno", requires_markers := ["deno.json"] } ] }
    patterns :=
      { forbidden_patterns :=
          [ { name := "hardcoded_secrets", regex := secretsRegexText,
              file_types := ["*"], reason := "Hardcoded secrets detected" } ] }
    enforcement :=
      { slm_weight := 3 / 2, escalate_threshold := 2 / 5, block_threshold := 7 / 10 } }

-- ===== Contract layer (src/contract/src/lib.rs) =====

instance {α β : Type} [DecidableEq α] [DecidableEq β] : DecidableEq (Except α β) := fun a b =>
  match a, b with
  | Except.error x, Except.error y =>
    if h : x = y then isTrue (by rw [h]) else isFalse (by intro hc; cases hc; exact h rfl)
  | Except.ok x, Except.ok y =>
    if h : x = y then isTrue (by rw [h]) else isFalse (by intro hc; cases hc; exact h rfl)
  | Except.error _, Except.ok _ => isFalse (by intro hc; cases hc)
  | Except.ok _, Except.error _ => isFalse (by intro hc; cases hc)

/-- Contract version constant CONTRACT_VERSION. -/
def CONTRACT_VERSION : String := "0.1.0"

inductive Verdict where
  | allow
  | warn
  | escalate
  | block
  deriving DecidableEq, Repr

/-- Verdict::exit_code. -/
def Verdict.exit_code : Verdict → Int
  | Verdict.allow => 0
  | Verdict.warn => 2
  | Verdict.escalate => 3
  | Verdict.block => 1

inductive RefusalCategory where
  | forbiddenLanguage
  | forbiddenToolchain
  | securityViolation
  | forbiddenPattern
  | verbositySmell
  | structuralAnomaly
  | intentViolation
  | adversarialInput
  | invalidRequest
  | rateLimited
  | systemError
  deriving DecidableEq, Repr

inductive RefusalCode where
  | lang100TypeScript
  | lang101Python
  | lang102Go
  | lang103Java
  | lang104Kotlin
  | lang105Swift
  | lang199OtherForbidden
  | tool200NpmWithoutDeno
  | tool201YarnWithoutDeno
  | tool202NodeModules
  | tool203PackageJson
  | tool299OtherToolchain
  | sec300HardcodedSecret
  | sec301InsecureHash
  | sec302HttpUrl
  | sec303CommandInjection
  | sec304SqlInjection
  | sec399OtherSecurity
  | pat400ForbiddenImport
  | pat401UnsafeBlock
  | pat499OtherPattern
  | spirit500Verbosity
  | spirit501OverDocumentation
  | spirit502RedundantComments
  | spirit503BoilerplateCode
  | spirit504MetaCommentary
  | spirit505IntentMismatch
  | spirit599OtherSpirit
  | sys900InvalidRequest
  | sys901RateLimited
  | sys902InternalError
  | sys999Unknown
  deriving DecidableEq, Repr, Fintype

/-- RefusalCode::numeric. -/
def RefusalCode.numeric : RefusalCode → Nat
  | RefusalCode.lang100TypeScript => 100
  | RefusalCode.lang101Python => 101
  | RefusalCode.lang102Go => 102
  | RefusalCode.lang103Java => 103
  | RefusalCode.lang104Kotlin => 104
  | RefusalCode.lang105Swift => 105
  | RefusalCode.lang199OtherForbidden => 199
  | RefusalCode.tool200NpmWithoutDeno => 200
  | RefusalCode.tool201YarnWithoutDeno => 201
  | RefusalCode.tool202NodeModules => 202
  | RefusalCode.tool203PackageJson => 203
  | RefusalCode.tool299OtherToolchain => 299
  | RefusalCode.sec300HardcodedSecret => 300
  | RefusalCode.sec301InsecureHash => 301
  | RefusalCode.sec302HttpUrl => 302
  | RefusalCode.sec303CommandInjection => 303
  | RefusalCode.sec304SqlInjection => 304
  | RefusalCode.sec399OtherSecurity => 399
  | RefusalCode.pat400ForbiddenImport => 400
  | RefusalCode.pat401UnsafeBlock => 401
  | RefusalCode.pat499OtherPattern => 499
  | RefusalCode.spirit500Verbosity => 500
  | RefusalCode.spirit501OverDocumentation => 501
  | RefusalCode.spirit502RedundantComments => 502
  | RefusalCode.spirit503BoilerplateCode => 503
  | RefusalCode.spirit504MetaCommentary => 504
  | RefusalCode.spirit505IntentMismatch => 505
  | RefusalCode.spirit599OtherSpirit => 599
  | RefusalCode.sys900InvalidRequest => 900
  | RefusalCode.sys901RateLimited => 901
  | RefusalCode.sys902InternalError => 902
  | RefusalCode.sys999Unknown => 999

/-- Hundred-range families of the refusal code enumeration, following the
group comments of the RefusalCode declaration (Language codes 1xx,
Toolchain 2xx, Security 3xx, Pattern 4xx, Spirit 5xx, System 9xx). -/
inductive CodeKind where
  | language
  | toolchain
  | security
  | patternKind
  | spirit
  | system
  deriving DecidableEq, Repr

/-- Family of each refusal code, by the declaration grouping. -/
def RefusalCode.kind : RefusalCode → CodeKind
  | RefusalCode.lang100TypeScript => CodeKind.language
  | RefusalCode.lang101Python => CodeKind.language
  | RefusalCode.lang102Go => CodeKind.language
  | RefusalCode.lang103Java => CodeKind.language
  | RefusalCode.lang104Kotlin => CodeKind.language
  | RefusalCode.lang105Swift => CodeKind.language
  | RefusalCode.lang199OtherForbidden => CodeKind.language
  | RefusalCode.tool200NpmWithoutDeno => CodeKind.toolchain
  | RefusalCode.tool201YarnWithoutDeno => CodeKind.toolchain
  | RefusalCode.tool202NodeModules => CodeKind.toolchain
  | RefusalCode.tool203PackageJson => CodeKind.toolchain
  | RefusalCode.tool299OtherToolchain => CodeKind.toolchain
  | RefusalCode.sec300HardcodedSecret => CodeKind.security
  | RefusalCode.sec301InsecureHash => CodeKind.security
  | RefusalCode.sec302HttpUrl => CodeKind.security
  | RefusalCode.sec303CommandInjection => CodeKind.security
  | RefusalCode.sec304SqlInjection => CodeKind.security
  | RefusalCode.sec399OtherSecurity => CodeKind.security
  | RefusalCode.pat400ForbiddenImport => CodeKind.patternKind
  | RefusalCode.pat401UnsafeBlock => CodeKind.patternKind
  | RefusalCode.pat499OtherPattern => CodeKind.patternKind
  | RefusalCode.spirit500Verbosity => CodeKind.spirit
  | RefusalCode.spirit501OverDocumentation => CodeKind.spirit
  | RefusalCode.spirit502RedundantComments => CodeKind.spirit
  | RefusalCode.spirit503BoilerplateCode => CodeKind.spirit
  | RefusalCode.spirit504MetaCommentary => CodeKind.spirit
  | RefusalCode.spirit505IntentMismatch => CodeKind.spirit
  | RefusalCode.spirit599OtherSpirit => CodeKind.spirit
  | RefusalCode.sys900InvalidRequest => CodeKind.system
  | RefusalCode.sys901RateLimited => CodeKind.system
  | RefusalCode.sys902InternalError => CodeKind.system
  | RefusalCode.sys999Unknown => CodeKind.system

inductive EvidenceType where
  | fileExtension
  | contentMarker
  | regexMatch
  | syntaxPattern
  | slmAnalysis
  | historicalPattern
  deriving DecidableEq, Repr

structure Evidence where
  evidence_type : EvidenceType
  file : Option String
  line : Option Nat
  match_content : String
  explanation : String
  deriving DecidableEq, Repr

inductive AuthorizationLevel where
  | user
  | maintainer
  | admin
  | noOverride
  deriving DecidableEq, Repr

structure Refusal where
  category : RefusalCategory
  code : RefusalCode
  message : String
  remediation : Option String
  evidence : List Evidence
  overridable : Bool
  override_level : Option AuthorizationLevel
  deriving DecidableEq, Repr

/-- ContractRunner::map_concern: fixed lookup from concern kind to
refusal category, code and message. -/
def map_concern : ConcernType → RefusalCategory × RefusalCode × String
  | ConcernType.verbositySmell =>
    (RefusalCategory.verbositySmell, RefusalCode.spirit500Verbosity,
      "Excessive verbosity detected")
  | ConcernType.patternDeviation =>
    (RefusalCategory.structuralAnomaly, RefusalCode.spirit505IntentMismatch,
      "Unusual pattern deviation detected")
  | ConcernType.unusualStructure =>
    (RefusalCategory.structuralAnomaly, RefusalCode.spirit505IntentMismatch,
      "Unusual code structure detected")
  | ConcernType.tier2Language language =>
    (RefusalCategory.forbiddenLanguage, RefusalCode.lang199OtherForbidden,
      "Tier 2 language \x27" ++ language ++ "\x27 - consider Tier 1 alternative")

/-- Result quintuple of ContractRunner::map_violation (category, code,
message, evidence, remediation). -/
structure ViolationMapping where
  category : RefusalCategory
  code : RefusalCode
  message : String
  evidence : List Evidence
  remediation : Option String
  deriving DecidableEq, Repr

/-- ContractRunner::map_violation: fixed lookup from violation kind to the
refusal quintuple, with per-language codes and remediation hints. -/
def map_violation : ViolationType → ViolationMapping
  | ViolationType.forbiddenLanguage language file ctx =>
    let l := String.mk (toLowerCL language.data)
    let code :=
      if l = "typescript" then RefusalCode.lang100TypeScript
      else if l = "python" then RefusalCode.lang101Python
      else if l = "go" then RefusalCode.lang102Go
      else if l = "java" then RefusalCode.lang103Java
      else if l = "kotlin" then RefusalCode.lang104Kotlin
      else if l = "swift" then RefusalCode.lang105Swift
      else RefusalCode.lang199OtherForbidden
    let remediation :=
      if l = "typescript" then some "Use ReScript instead of TypeScript"
      else if l = "python" then some "Python is only allowed in salt/ for SaltStack configs"
      else if l = "go" then some "Use Rust instead of Go"
      else if l = "java" then some "Use Rust/Tauri/Dioxus instead of Java"
      else none
    { category := RefusalCategory.forbiddenLanguage
      code := code
      message := "Forbidden language \x27" ++ language ++ "\x27 detected"
      evidence :=
        [ { evidence_type := EvidenceType.contentMarker, file := some file, line := none,
            match_content := ctx, explanation := language ++ " code detected" } ]
      remediation := remediation }
  | ViolationType.forbiddenToolchain tool missing =>
    { category := RefusalCategory.forbiddenToolchain
      code := RefusalCode.tool200NpmWithoutDeno
      message := "Toolchain violation: " ++ tool ++ " requires " ++ missing
      evidence :=
        [ { evidence_type := EvidenceType.fileExtension, file := none, line := none,
            match_content := tool, explanation := tool ++ " detected without " ++ missing } ]
      remediation := some ("Add " ++ missing ++ " to use " ++ tool) }
  | ViolationType.securityViolation description =>
    { category := RefusalCategory.securityViolation
      code := RefusalCode.sec300HardcodedSecret
      message := "Security violation: " ++ description
      evidence := []
      remediation := some "Remove hardcoded secrets and use environment variables" }
  | ViolationType.forbiddenPattern patternName file =>
    { category := RefusalCategory.forbiddenPattern
      code := RefusalCode.pat499OtherPattern
      message := "Forbidden pattern \x27" ++ patternName ++ "\x27 detected"
      evidence :=
        [ { evidence_type := EvidenceType.regexMatch, file := some file, line := none,
            match_content := patternName, explanation := "Pattern matched forbidden regex" } ]
      remediation := none }

/-- ContractRunner::process_oracle_result: Compliant gives (Allow, no
refusal); SoftConcern gives Warn with a user-overridable refusal;
HardViolation gives Block with a non-overridable refusal. -/
def process_oracle_result (eval : OracleEvaluation) : Verdict × Option Refusal :=
  match eval.verdict with
  | PolicyVerdict.compliant => (Verdict.allow, none)
  | PolicyVerdict.softConcern concern =>
    let t := map_concern concern
    (Verdict.warn, some
      { category := t.1, code := t.2.1, message := t.2.2
        remediation := some "Consider refactoring to address the concern"
        evidence := []
        overridable := true
        override_level := some AuthorizationLevel.user })
  | PolicyVerdict.hardViolation violation =>
    let m := map_violation violation
    (Verdict.block, some
      { category := m.category, code := m.code, message := m.message
        remediation := m.remediation
        evidence := m.evidence
        overridable := false
        override_level := some AuthorizationLevel.noOverride })

structure SlmEvaluationResult where
  spirit_score : Rat
  confidence : Rat
  reasoning : String
  should_block : Bool
  deriving DecidableEq, Repr

structure ArbiterResult where
  consensus_reached : Bool
  oracle_vote : Verdict
  slm_vote : Verdict
  final_verdict : Verdict
  slm_weight : Rat
  deriving DecidableEq, Repr

structure EvaluationChain where
  oracle : Option OracleEvaluation
  slm : Option SlmEvaluationResult
  arbiter : Option ArbiterResult
  deriving DecidableEq, Repr

/-- ProcessingMetadata without the wall-clock duration_us field. -/
structure ProcessingMetadata where
  contract_version : String
  policy_name : String
  rules_checked : Nat
  stages_executed : List String
  deriving DecidableEq, Repr

/-- GatingDecision without the id and timestamp fields (freshly generated
per call in the source). -/
structure GatingDecision where
  verdict : Verdict
  refusal : Option Refusal
  evaluations : EvaluationChain
  processing : ProcessingMetadata
  deriving DecidableEq, Repr

inductive ContractError where
  | invalidRequest (msg : String)
  | oracleError (e : OracleError)
  | serializationError (msg : String)
  | ioError (msg : String)
  deriving DecidableEq, Repr

/-- ContractRunner::evaluate: run the oracle stage once, turn the oracle
evaluation into verdict and refusal via process_oracle_result, and
assemble the decision.  An oracle error becomes
ContractError::OracleError; an oracle panic (none) propagates. -/
def evaluate (engine : RegexEngine) (policy : Policy) (prop : Proposal) :
    Option (Except ContractError GatingDecision) :=
  (check_proposal engine policy prop).map (fun res =>
    match res with
    | Except.error e => Except.error (ContractError.oracleError e)
    | Except.ok oracle_eval =>
      let vr := process_oracle_result oracle_eval
      Except.ok
        { verdict := vr.1
          refusal := vr.2
          evaluations := { oracle := some oracle_eval, slm := none, arbiter := none }
          processing :=
            { contract_version := CONTRACT_VERSION
              policy_name := policy.name
              rules_checked := oracle_eval.rules_checked.length
              stages_executed := ["oracle"] } })

-- ===== Regression harness (src/contract/src/lib.rs) =====

/-- TestResult without the duration_us field. -/
structure TestResult where
  name : String
  passed : Bool
  actual_verdict : Verdict
  expected_verdict : Verdict
  actual_category : Option RefusalCategory
  error : Option String
  deriving DecidableEq, Repr

/-- BaselineResult without the recorded_at and contract_version fields. -/
structure BaselineResult where
  name : String
  verdict : Verdict
  category : Option RefusalCategory
  code : Option Nat
  deriving DecidableEq, Repr

/-- RegressionBaseline keeping the fields compare reads (results and
git_commit); schema, timestamps and metadata are omitted. -/
structure RegressionBaseline where
  git_commit : Option String
  results : List BaselineResult
  deriving DecidableEq, Repr

structure Regression where
  test_name : String
  baseline_verdict : Verdict
  current_verdict : Verdict
  baseline_passed : Bool
  current_passed : Bool
  error_message : Option String
  deriving DecidableEq, Repr

structure Improvement where
  test_name : String
  baseline_verdict : Verdict
  current_verdict : Verdict
  deriving DecidableEq, Repr

structure BehaviorChange where
  test_name : String
  baseline_verdict : Verdict
  current_verdict : Verdict
  baseline_category : Option RefusalCategory
  current_category : Option RefusalCategory
  deriving DecidableEq, Repr

/-- RegressionReport without the timestamp field. -/
structure RegressionReport where
  baseline_commit : Option String
  current_version : String
  total_compared : Nat
  regressions : List Regression
  improvements : List Improvement
  behavior_changes : List BehaviorChange
  stable_count : Nat
  new_tests : List String
  removed_tests : List String
  deriving DecidableEq, Repr

structure RegressionHarness where
  baseline : Option RegressionBaseline
  current_results : List TestResult
  deriving DecidableEq, Repr

/-- Lookup in the baseline map of RegressionHarness::compare.  The map is
a HashMap collected from an iterator, so for duplicate names the last
entry wins; reversing before find models that. -/
def baselineLookup (rs : List BaselineResult) (n : String) : Option BaselineResult :=
  rs.reverse.find? (fun b => b.name == n)

/-- Regression entry for one current result: present when the baseline
entry of the same name passed against the current expectation and the
current run failed.  The baseline-passed test is the comparison-time
recomputation baseline.verdict == current.expected_verdict. -/
def regEntry (rs : List BaselineResult) (c : TestResult) : Option Regression :=
  (baselineLookup rs c.name).bind (fun b =>
    let baseline_passed := b.verdict == c.expected_verdict
    if baseline_passed && !c.passed then
      some
        { test_name := c.name, baseline_verdict := b.verdict
          current_verdict := c.actual_verdict, baseline_passed := baseline_passed
          current_passed := c.passed, error_message := c.error }
    else none)

/-- Improvement entry for one current result: the second branch of the
if/else chain, reached only when the regression branch was not taken. -/
def impEntry (rs : List BaselineResult) (c : TestResult) : Option Improvement :=
  (baselineLookup rs c.name).bind (fun b =>
    let baseline_passed := b.verdict == c.expected_verdict
    if !(baseline_passed && !c.passed) && (!baseline_passed && c.passed) then
      some
        { test_name := c.name, baseline_verdict := b.verdict
          current_verdict := c.actual_verdict }
    else none)

/-- Behavior-change entry for one current result: the third branch,
reached when neither regression nor improvement applies and the verdict
changed. -/
def bcEntry (rs : List BaselineResult) (c : TestResult) : Option BehaviorChange :=
  (baselineLookup rs c.name).bind (fun b =>
    let baseline_passed := b.verdict == c.expected_verdict
    if !(baseline_passed && !c.passed) && !(!baseline_passed && c.passed) &&
        !(b.verdict == c.actual_verdict) then
      some
        { test_name := c.name, baseline_verdict := b.verdict
          current_verdict := c.actual_verdict, baseline_category := b.category
          current_category := c.actual_category }
    else none)

/-- Stable flag for one current result: the final else branch. -/
def stableFlag (rs : List BaselineResult) (c : TestResult) : Bool :=
  match baselineLookup rs c.name with
  | some b =>
    let baseline_passed := b.verdict == c.expected_verdict
    !(baseline_passed && !c.passed) && !(!baseline_passed && c.passed) &&
      (b.verdict == c.actual_verdict)
  | none => false

/-- New-test entry for one current result: its name, when the baseline
has no entry of that name. -/
def newEntry (rs : List BaselineResult) (c : TestResult) : Option String :=
  if (baselineLookup rs c.name).isNone then some c.name else none

/-- RegressionHarness::compare.  With no baseline, every current result is
new and nothing else is reported.  With a baseline, each current result
with a baseline entry of the same name goes through the if/else chain
(regression, improvement, behavior change, stable); a current result
without a baseline entry is new; a baseline entry without a current
result is removed.  The single Rust pass pushing into disjoint vectors
is rendered as one filterMap per vector, with the branch conditions of
the chain spelled out in each entry function. -/
def RegressionHarness.compare (h : RegressionHarness) : RegressionReport :=
  match h.baseline with
  | none =>
    { baseline_commit := none
      current_version := CONTRACT_VERSION
      total_compared := 0
      regressions := []
      improvements := []
      behavior_changes := []
      stable_count := 0
      new_tests := h.current_results.map (fun r => r.name)
      removed_tests := [] }
  | some baseline =>
    { baseline_commit := baseline.git_commit
      current_version := CONTRACT_VERSION
      total_compared := h.current_results.length
      regressions := h.current_results.filterMap (regEntry baseline.results)
      improvements := h.current_results.filterMap (impEntry baseline.results)
      behavior_changes := h.current_results.filterMap (bcEntry baseline.results)
      stable_count := h.current_results.countP (stableFlag baseline.results)
      new_tests := h.current_results.filterMap (newEntry baseline.results)
      removed_tests := baseline.results.filterMap (fun b =>
        if h.current_results.any (fun c => c.name == b.name) then none else some b.name) }

-- ===== Red-team scoring (src/contract/src/lib.rs) =====

structure CategoryStats where
  total : Nat
  blocked : Nat
  bypassed : Nat
  false_positives : Nat
  deriving DecidableEq, Repr

/-- RedTeamSummary; the by_category HashMap is carried as an association
list, and the f64 rates as rationals. -/
structure RedTeamSummary where
  total : Nat
  blocked : Nat
  bypassed : Nat
  false_positives : Nat
  known_limitations : Nat
  by_category : List (String × CategoryStats)
  bypass_rate : Rat
  false_positive_rate : Rat
  deriving DecidableEq, Repr

/-- f64::clamp of Rust, over exact rationals. -/
def clampQ (x lo hi : Rat) : Rat :=
  if x < lo then lo else if x > hi then hi else x

/-- RedTeamSummary::security_score.  The f64 arithmetic of the source is
modelled exactly over the rationals; the final cast to u8 on a value
already clamped into the interval 0 to 100 truncates toward zero, which
is the floor. -/
def security_score (s : RedTeamSummary) : Nat :=
  if s.total = 0 then 100
  else
    let blocked_rate : Rat := (s.blocked : Rat) / (s.total : Rat)
    let fp_penalty := s.false_positive_rate * (1 / 2)
    let score := (blocked_rate - fp_penalty) * 100
    (⌊clampQ score 0 100⌋).toNat

-- ===== Concrete engines and inputs used by witnesses =====

/-- Regex engine whose compilations all succeed and whose matchers never
match.  It reflects the behaviour of the real regex crate on the
concrete pairs it is applied to below: the hardcoded_secrets default
regex compiles, and matches none of the contents used ("fn main()",
"Creating a utility file", "import os", "hello"). -/
def noMatchEngine : RegexEngine :=
  { compile := fun _ => Except.ok (fun _ => false) }

/-- Regex engine on which the pattern text "(" fails to compile, as it
does in the real regex crate (an unclosed group), and every other
pattern compiles to a matcher that never matches. -/
def failParenEngine : RegexEngine :=
  { compile := fun r =>
      if r = "(" then Except.error "regex parse error: unclosed group"
      else Except.ok (fun _ => false) }

/-- Proposal creating a compliant Rust file. -/
def rustProp : Proposal :=
  { id := 1, action_type := ActionType.createFile "main.rs", content := "fn main()",
    files_affected := ["main.rs"], llm_confidence := 9 / 10 }

/-- Proposal creating a TypeScript file (forbidden extension). -/
def tsProp : Proposal :=
  { id := 2, action_type := ActionType.createFile "util.ts",
    content := "Creating a utility file", files_affected := ["util.ts"],
    llm_confidence := 9 / 10 }

/-- Proposal creating a Python file under the salt/ exception path. -/
def saltProp : Proposal :=
  { id := 3, action_type := ActionType.createFile "salt/config.py",
    content := "import os", files_affected := ["salt/config.py"],
    llm_confidence := 9 / 10 }

/-- Proposal creating a TypeScript file under the salt/ exception path
(the exception rule is for python only). -/
def saltTsProp : Proposal :=
  { id := 4, action_type := ActionType.createFile "salt/util.ts", content := "hello",
    files_affected := ["salt/util.ts"], llm_confidence := 9 / 10 }

/-- Proposal whose content places a python marker 31 bytes after the
start, preceded by multi-byte characters: fifteen copies of the two-byte
character é, then x, then a def marker.  extract_context then slices the
content from byte 1, which is not a character boundary. -/
def uniProp : Proposal :=
  { id := 5, action_type := ActionType.createFile "notes.txt",
    content := "éééééééééééééééxdef foo", files_affected := [],
    llm_confidence := 9 / 10 }

/-- Proposal with plain content, used against a policy whose pattern
regex is malformed. -/
def plainProp : Proposal :=
  { id := 6, action_type := ActionType.createFile "a.txt", content := "hello",
    files_affected := ["a.txt"], llm_confidence := 1 }

/-- The default policy with its single pattern rule replaced by one whose
regex text "(" is malformed. -/
def badPatternPolicy : Policy :=
  { rsr_default with
    patterns :=
      { forbidden_patterns :=
          [ { name := "bad", regex := "(", file_types := ["*"], reason := "broken" } ] } }

-- ===== Claim theorems =====

/-- Claim C7: every RefusalCode variant maps under numeric to exactly one
fixed value, and the mapping is partitioned by hundreds: language codes
lie in 100 to 199, toolchain codes in 200 to 299, security codes in 300
to 399, generic pattern codes in 400 to 499, spirit codes in 500 to 599,
and system-error codes in 900 to 999. -/
theorem c7_numeric_partition :
    ∀ c : RefusalCode,
      ((c.kind = CodeKind.language) ↔ (100 ≤ c.numeric ∧ c.numeric ≤ 199)) ∧
      ((c.kind = CodeKind.toolchain) ↔ (200 ≤ c.numeric ∧ c.numeric ≤ 299)) ∧
      ((c.kind = CodeKind.security) ↔ (300 ≤ c.numeric ∧ c.numeric ≤ 399)) ∧
      ((c.kind = CodeKind.patternKind) ↔ (400 ≤ c.numeric ∧ c.numeric ≤ 499)) ∧
      ((c.kind = CodeKind.spirit) ↔ (500 ≤ c.numeric ∧ c.numeric ≤ 599)) ∧
      ((c.kind = CodeKind.system) ↔ (900 ≤ c.numeric ∧ c.numeric ≤ 999)) := by
  decide

/-- Claim C6, counterexample: a toolchain violation with no dedicated code
mapping (cargo requiring rustup) is given code 200 (Tool200NpmWithoutDeno),
not the documented other code 299; a security violation other than a
hardcoded secret is given code 300, not 399. -/
theorem c6_counterexample :
    (map_violation (ViolationType.forbiddenToolchain "cargo" "rustup")).code.numeric = 200 ∧
    (map_violation (ViolationType.forbiddenToolchain "cargo" "rustup")).code.numeric ≠ 299 ∧
    (map_violation (ViolationType.securityViolation "weak hash")).code.numeric = 300 ∧
    (map_violation (ViolationType.securityViolation "weak hash")).code.numeric ≠ 399 := by
  decide

/-- Claim C6, amended: map_violation gives every toolchain violation the
fixed code Tool200NpmWithoutDeno (numeric 200) and every security
violation the fixed code Sec300HardcodedSecret (numeric 300), regardless
of the specific instance; only the pattern kind carries its documented
other fallback code Pat499OtherPattern (numeric 499).  Each assigned
code stays within its kind's hundred-range. -/
theorem c6_fixed_codes :
    ∀ tool missing description patternName file : String,
      (map_violation (ViolationType.forbiddenToolchain tool missing)).code =
          RefusalCode.tool200NpmWithoutDeno ∧
      (map_violation (ViolationType.forbiddenToolchain tool missing)).code.numeric = 200 ∧
      (map_violation (ViolationType.securityViolation description)).code =
          RefusalCode.sec300HardcodedSecret ∧
      (map_violation (ViolationType.securityViolation description)).code.numeric = 300 ∧
      (map_violation (ViolationType.forbiddenPattern patternName file)).code =
          RefusalCode.pat499OtherPattern ∧
      (map_violation (ViolationType.forbiddenPattern patternName file)).code.numeric = 499 := by
  intro tool missing description patternName file
  exact ⟨rfl, rfl, rfl, rfl, rfl, rfl⟩

/-- Security-score formula as the specification words it: clamp of
(blocked rate minus half the false-positive rate) times 100 into the
interval from 0 to 100, written with max and min. -/
def scoreFormulaSpec (s : RedTeamSummary) : Rat :=
  max 0 (min (((s.blocked : Rat) / (s.total : Rat) - (1 / 2) * s.false_positive_rate) * 100) 100)

/-- Red-team summary with three cases, one blocked, no false positives. -/
def rtThird : RedTeamSummary :=
  { total := 3, blocked := 1, bypassed := 2, false_positives := 0, known_limitations := 0,
    by_category := [], bypass_rate := 2 / 3, false_positive_rate := 0 }

/-- Claim C9, counterexample: with three cases and one blocked the clamp
formula gives 100/3, but security_score returns the u8 value 33, so the
two are not equal. -/
theorem c9_counterexample :
    security_score rtThird = 33 ∧
    scoreFormulaSpec rtThird = 100 / 3 ∧
    (security_score rtThird : Rat) ≠ scoreFormulaSpec rtThird := by
  have h1 : security_score rtThird = 33 := by
    simp only [security_score, rtThird]
    norm_num [clampQ]
    rfl
  have h2 : scoreFormulaSpec rtThird = 100 / 3 := by
    simp only [scoreFormulaSpec, rtThird]
    norm_num
  refine ⟨h1, h2, ?_⟩
  rw [h1, h2]
  norm_num

/-- Rust clamp into the interval from 0 to 100 agrees with max and min. -/
theorem clampQ_eq_max_min (x : Rat) : clampQ x 0 100 = max 0 (min x 100) := by
  unfold clampQ
  split_ifs with h1 h2
  · rw [min_eq_left (le_of_lt (lt_of_lt_of_le h1 (by norm_num))), max_eq_left (le_of_lt h1)]
  · rw [min_eq_right (le_of_lt h2), max_eq_right (by norm_num)]
  · rw [min_eq_left (not_lt.mp h2), max_eq_right (not_lt.mp h1)]

/-- Claim C9, amended: security_score equals 100 when total is zero, and
otherwise equals the integer truncation (the u8 cast, a floor on the
already-clamped nonnegative value) of the clamp formula
clamp((blocked/total - 0.5 * false_positive_rate) * 100, 0, 100). -/
theorem c9_security_score (s : RedTeamSummary) :
    (s.total = 0 → security_score s = 100) ∧
    (s.total ≠ 0 → security_score s = (⌊scoreFormulaSpec s⌋).toNat) := by
  constructor
  · intro h
    simp [security_score, h]
  · intro h
    simp only [security_score, if_neg h]
    rw [clampQ_eq_max_min, scoreFormulaSpec, mul_comm s.false_positive_rate (1 / 2 : Rat)]

/-- Red-team summary with four cases, two blocked, false-positive rate one
half. -/
def rtQuarter : RedTeamSummary :=
  { total := 4, blocked := 2, bypassed := 2, false_positives := 2, known_limitations := 0,
    by_category := [], bypass_rate := 1 / 2, false_positive_rate := 1 / 2 }

/-- Witness for c9_security_score at a concrete summary: the nonzero-total
hypothesis holds and the truncated clamp value is computed. -/
theorem c9_security_score_witness :
    rtQuarter.total ≠ 0 ∧ security_score rtQuarter = (⌊scoreFormulaSpec rtQuarter⌋).toNat :=
  ⟨by decide, (c9_security_score rtQuarter).2 (by decide)⟩

/-- Claim C4: the extract_context byte slicing panics on uniProp (the
slice start falls inside a two-byte character), so check_proposal does
not return, for every regex engine; the claim that check_proposal never
panics fails on this input. -/
theorem c4_panic_on_unicode :
    ∀ engine : RegexEngine, check_proposal engine rsr_default uniProp = none := by
  intro engine
  have h : contentLanguageScan rsr_default uniProp = none := by decide
  unfold check_proposal
  rw [h]

/-- Pattern scan failure: whenever some pattern rule fails to compile
under the engine, the pattern loop returns an error. -/
theorem patternGo_error_of_bad (engine : RegexEngine) (prop : Proposal) :
    ∀ pats : List ForbiddenPattern,
      (∃ p ∈ pats, (engine.compile p.regex).isOk = false) →
      ∃ msg, patternGo engine prop pats = Except.error msg := by
  intro pats
  induction pats with
  | nil => rintro ⟨p, hp, _⟩; cases hp
  | cons p rest ih =>
    rintro ⟨q, hq, hbad⟩
    cases hc : engine.compile p.regex with
    | error e =>
      exact ⟨e, by simp [patternGo, hc]⟩
    | ok m =>
      have hqrest : q ∈ rest := by
        cases List.mem_cons.mp hq with
        | inl heq => subst heq; rw [hc] at hbad; simp [Except.isOk, Except.toBool] at hbad
        | inr h => exact h
      obtain ⟨msg, hmsg⟩ := ih ⟨q, hqrest, hbad⟩
      refine ⟨msg, ?_⟩
      simp only [patternGo, hc]
      by_cases hm : m prop.content = true
      · simp [hm, hmsg, Except.map]
      · simp [hm, hmsg]

/-- Claim C3, counterexample: against a policy whose pattern regex "(" is
malformed, check_proposal for a single proposal returns the per-proposal
error OracleError::RegexError during that proposal's evaluation, not a
PolicyParseError raised before proposal evaluation. -/
theorem c3_counterexample :
    check_proposal failParenEngine badPatternPolicy plainProp =
      some (Except.error (OracleError.regexError "regex parse error: unclosed group")) := by
  decide

/-- Claim C3, amended: if any forbidden-pattern rule of the policy has a
regex that fails to compile, then whenever check_proposal returns a
result for a proposal (it can also panic earlier), that result is the
per-proposal error OracleError::RegexError; the fault is raised anew
during each individual proposal's evaluation, and never as a
PolicyParseError before proposals are evaluated (the PolicyParseError
variant is declared in the source but never constructed). -/
theorem c3_regex_error_is_per_proposal (engine : RegexEngine) (policy : Policy)
    (prop : Proposal)
    (hbad : ∃ p ∈ policy.patterns.forbidden_patterns, (engine.compile p.regex).isOk = false) :
    ∀ r, check_proposal engine policy prop = some r →
      ∃ msg, r = Except.error (OracleError.regexError msg) := by
  intro r hr
  obtain ⟨msg, hmsg⟩ := patternGo_error_of_bad engine prop _ hbad
  unfold check_proposal at hr
  cases hc : contentLanguageScan policy prop with
  | none => rw [hc] at hr; cases hr
  | some cv =>
    rw [hc] at hr
    have hps : patternScan engine policy prop = Except.error msg := by
      rw [patternScan, hmsg]
    rw [hps] at hr
    exact ⟨msg, (Option.some.injEq _ _).mp hr.symm⟩

/-- Witness for c3_regex_error_is_per_proposal at the concrete malformed
policy, engine and proposal. -/
theorem c3_regex_error_is_per_proposal_witness :
    (∃ p ∈ badPatternPolicy.patterns.forbidden_patterns,
        (failParenEngine.compile p.regex).isOk = false) ∧
    (∃ msg,
        (Except.error (OracleError.regexError "regex parse error: unclosed group") :
            Except OracleError OracleEvaluation) =
          Except.error (OracleError.regexError msg)) :=
  ⟨by decide,
    c3_regex_error_is_per_proposal failParenEngine badPatternPolicy plainProp (by decide) _
      (by decide)⟩

/-- Claim C1: for every decision returned by evaluate, the decision
verdict is Allow exactly when the oracle verdict is Compliant, Warn
exactly when it is SoftConcern, Block exactly when it is HardViolation;
a refusal is present exactly when the verdict is not Allow; Escalate is
never produced. -/
theorem c1_verdict_refusal (engine : RegexEngine) (policy : Policy) (prop : Proposal)
    (d : GatingDecision) (h : evaluate engine policy prop = some (Except.ok d)) :
    ∃ ev, d.evaluations.oracle = some ev ∧
      (d.verdict = Verdict.allow ↔ ev.verdict = PolicyVerdict.compliant) ∧
      (d.verdict = Verdict.warn ↔ ∃ c, ev.verdict = PolicyVerdict.softConcern c) ∧
      (d.verdict = Verdict.block ↔ ∃ v, ev.verdict = PolicyVerdict.hardViolation v) ∧
      (d.refusal.isSome = true ↔ d.verdict ≠ Verdict.allow) ∧
      d.verdict ≠ Verdict.escalate := by
  unfold evaluate at h
  cases hc : check_proposal engine policy prop with
  | none => rw [hc] at h; cases h
  | some res =>
    rw [hc] at h
    cases res with
    | error e => simp [Option.map] at h
    | ok ev =>
      simp only [Option.map, Option.some.injEq, Except.ok.injEq] at h
      subst h
      refine ⟨ev, rfl, ?_⟩
      cases hev : ev.verdict with
      | compliant => simp [process_oracle_result, hev]
      | softConcern c0 =>
        simp only [process_oracle_result, hev]
        refine ⟨by simp, by simp, by simp, by simp, by simp⟩
      | hardViolation v0 =>
        simp only [process_oracle_result, hev]
        refine ⟨by simp, by simp, by simp, by simp, by simp⟩

/-- Decision returned by evaluate on the compliant Rust proposal under
the default policy. -/
def c1Decision : GatingDecision :=
  match evaluate noMatchEngine rsr_default rustProp with
  | some (Except.ok d) => d
  | _ =>
    { verdict := Verdict.escalate, refusal := none
      evaluations := { oracle := none, slm := none, arbiter := none }
      processing :=
        { contract_version := "", policy_name := "", rules_checked := 0,
          stages_executed := [] } }

/-- Witness for c1_verdict_refusal at the concrete Rust proposal. -/
theorem c1_verdict_refusal_witness :
    evaluate noMatchEngine rsr_default rustProp = some (Except.ok c1Decision) ∧
    (∃ ev, c1Decision.evaluations.oracle = some ev ∧
      (c1Decision.verdict = Verdict.allow ↔ ev.verdict = PolicyVerdict.compliant) ∧
      (c1Decision.verdict = Verdict.warn ↔ ∃ c, ev.verdict = PolicyVerdict.softConcern c) ∧
      (c1Decision.verdict = Verdict.block ↔ ∃ v, ev.verdict = PolicyVerdict.hardViolation v) ∧
      (c1Decision.refusal.isSome = true ↔ c1Decision.verdict ≠ Verdict.allow) ∧
      c1Decision.verdict ≠ Verdict.escalate) :=
  ⟨by decide, c1_verdict_refusal noMatchEngine rsr_default rustProp c1Decision (by decide)⟩

/-- Property of claim C2 for an evaluation returned by check_proposal:
the violation list is exactly the concatenation of the four scans in
scan order (content languages, file paths, toolchain, patterns), the
concern list is exactly the tier-2 scan, the verdict carries the first
violation when one exists, else the first concern, else Compliant. -/
def firstHitSelection (engine : RegexEngine) (policy : Policy) (prop : Proposal)
    (eval : OracleEvaluation) : Prop :=
  (∃ cv patv, contentLanguageScan policy prop = some cv ∧
      patternScan engine policy prop = Except.ok patv ∧
      eval.violations =
        cv ++ filePathScan policy prop ++ toolchainScan policy prop ++ patv) ∧
  eval.concerns = tier2Scan policy prop ∧
  (∀ v, eval.violations.head? = some v →
      eval.verdict = PolicyVerdict.hardViolation v.violation_type) ∧
  (eval.violations = [] → ∀ c, eval.concerns.head? = some c →
      eval.verdict = PolicyVerdict.softConcern c.concern_type) ∧
  (eval.violations = [] → eval.concerns = [] → eval.verdict = PolicyVerdict.compliant)

/-- Claim C2: whenever check_proposal returns an evaluation, its verdict
selects the first violation in the fixed scan order, else the first
concern, else Compliant, and all collected violations and concerns are
returned. -/
theorem c2_first_violation_scan_order (engine : RegexEngine) (policy : Policy)
    (prop : Proposal) (eval : OracleEvaluation)
    (h : check_proposal engine policy prop = some (Except.ok eval)) :
    firstHitSelection engine policy prop eval := by
  unfold check_proposal at h
  cases hc : contentLanguageScan policy prop with
  | none => rw [hc] at h; cases h
  | some cv =>
    rw [hc] at h
    cases hp : patternScan engine policy prop with
    | error e => rw [hp] at h; simp at h
    | ok patv =>
      rw [hp] at h
      simp only [Option.some.injEq, Except.ok.injEq] at h
      subst h
      refine ⟨⟨cv, patv, hc, hp, rfl⟩, rfl, ?_, ?_, ?_⟩
      · intro v hv
        dsimp only at hv ⊢
        rw [hv]
      · intro hnil c hcon
        dsimp only at hnil hcon ⊢
        rw [hnil]
        simp [hcon]
      · intro hnil hcnil
        dsimp only at hnil hcnil ⊢
        rw [hnil, hcnil]
        simp

/-- Evaluation returned by check_proposal on the TypeScript-file proposal
under the default policy. -/
def c2Eval : OracleEvaluation :=
  match check_proposal noMatchEngine rsr_default tsProp with
  | some (Except.ok e) => e
  | _ =>
    { proposal_id := 0, verdict := PolicyVerdict.compliant, rules_checked := [],
      violations := [], concerns := [] }

/-- Witness for c2_first_violation_scan_order at the concrete
TypeScript-file proposal (one violation, from the file-path scan). -/
theorem c2_first_violation_scan_order_witness :
    check_proposal noMatchEngine rsr_default tsProp = some (Except.ok c2Eval) ∧
    firstHitSelection noMatchEngine rsr_default tsProp c2Eval :=
  ⟨by decide,
    c2_first_violation_scan_order noMatchEngine rsr_default tsProp c2Eval (by decide)⟩

/-- Coverage hypothesis for the amended claim C5: every affected file
contains (as a substring, as in the source) an allowed path of some
exception rule for the given language (matched case-insensitively). -/
def ExcCovers (policy : Policy) (files : List String) (language : String) : Prop :=
  ∀ f ∈ files, ∃ exc ∈ policy.languages.exceptions,
    toLowerCL exc.language.data = toLowerCL language.data ∧
    ∃ a ∈ exc.allowed_paths, containsSub f.data a.data = true

/-- A covered file passes the per-file exception check. -/
theorem check_exception_single_of_covers (policy : Policy) (files : List String)
    (language : String) (hcov : ExcCovers policy files language) :
    ∀ f ∈ files, check_exception policy [f] language = true := by
  intro f hf
  obtain ⟨exc, hexc, hlang, a, ha, hcon⟩ := hcov f hf
  unfold check_exception
  rw [List.any_eq_true]
  refine ⟨exc, hexc, ?_⟩
  rw [Bool.and_eq_true, decide_eq_true_eq]
  exact ⟨hlang, by rw [List.any_eq_true]; exact ⟨f, List.mem_singleton.mpr rfl,
    by rw [List.any_eq_true]; exact ⟨a, ha, hcon⟩⟩⟩

/-- When the affected file list is nonempty and covered, the whole-list
exception check passes. -/
theorem check_exception_all_of_covers (policy : Policy) (files : List String)
    (language : String) (hcov : ExcCovers policy files language) (hne : files ≠ []) :
    check_exception policy files language = true := by
  obtain ⟨f, rest, rfl⟩ := List.exists_cons_of_ne_nil hne
  obtain ⟨exc, hexc, hlang, a, ha, hcon⟩ := hcov f (List.mem_cons_self f rest)
  unfold check_exception
  rw [List.any_eq_true]
  refine ⟨exc, hexc, ?_⟩
  rw [Bool.and_eq_true, decide_eq_true_eq]
  exact ⟨hlang, by rw [List.any_eq_true]; exact ⟨f, List.mem_cons_self f rest,
    by rw [List.any_eq_true]; exact ⟨a, ha, hcon⟩⟩⟩

/-- Shape of the violations produced by the content-language scan: each
comes from a forbidden rule whose whole-list exception check failed. -/
theorem contentGo_mem (policy : Policy) (prop : Proposal) :
    ∀ (langs : List LanguageConfig) (cv : List Violation),
      contentGo policy prop langs = some cv →
      ∀ v ∈ cv, ∃ lang ∈ langs,
        (∃ ctx, v.violation_type =
            ViolationType.forbiddenLanguage lang.name
              ((prop.files_affected.head?).getD "") ctx) ∧
        check_exception policy prop.files_affected lang.name = false := by
  intro langs
  induction langs with
  | nil =>
    intro cv hcv v hv
    simp only [contentGo, Option.some.injEq] at hcv
    subst hcv
    cases hv
  | cons lang rest ih =>
    intro cv hcv v hv
    by_cases h1 : content_contains_language prop.content lang = true
    · by_cases h2 : check_exception policy prop.files_affected lang.name = true
      · simp only [contentGo, h1, if_true, h2] at hcv
        obtain ⟨l2, hl2, hrest⟩ := ih cv hcv v hv
        exact ⟨l2, List.mem_cons_of_mem lang hl2, hrest⟩
      · rw [Bool.not_eq_true] at h2
        simp only [contentGo, h1, if_true, h2, Bool.false_eq_true, if_false] at hcv
        cases hext : extract_context prop.content lang.markers with
        | none => rw [hext] at hcv; cases hcv
        | some ctx =>
          rw [hext] at hcv
          cases hgo : contentGo policy prop rest with
          | none => rw [hgo] at hcv; cases hcv
          | some vs =>
            rw [hgo] at hcv
            simp only [Option.map, Option.some.injEq] at hcv
            subst hcv
            cases List.mem_cons.mp hv with
            | inl hveq =>
              subst hveq
              exact ⟨lang, List.mem_cons_self lang rest, ⟨ctx, rfl⟩, h2⟩
            | inr hvrest =>
              obtain ⟨l2, hl2, hrest⟩ := ih vs hgo v hvrest
              exact ⟨l2, List.mem_cons_of_mem lang hl2, hrest⟩
    · rw [Bool.not_eq_true] at h1
      simp only [contentGo, h1, Bool.false_eq_true, if_false] at hcv
      obtain ⟨l2, hl2, hrest⟩ := ih cv hcv v hv
      exact ⟨l2, List.mem_cons_of_mem lang hl2, hrest⟩

/-- Shape of the violations produced by the file-path scan: each names a
specific affected file whose singleton exception check failed. -/
theorem filePathScan_mem (policy : Policy) (prop : Proposal) (v : Violation)
    (hv : v ∈ filePathScan policy prop) :
    ∃ file ∈ prop.files_affected, ∃ lang ∈ policy.languages.forbidden,
      v.violation_type =
        ViolationType.forbiddenLanguage lang.name file
          ("File extension matches forbidden language: " ++ lang.name) ∧
      check_exception policy [file] lang.name = false := by
  unfold filePathScan at hv
  obtain ⟨file, hfile, hin⟩ := List.mem_flatMap.mp hv
  obtain ⟨lang, hlang, hsome⟩ := List.mem_filterMap.mp hin
  by_cases hg : (file_matches_language file lang &&
      !check_exception policy [file] lang.name) = true
  · rw [if_pos hg] at hsome
    rw [Bool.and_eq_true, Bool.not_eq_true'] at hg
    cases hsome
    exact ⟨file, hfile, lang, hlang, rfl, hg.2⟩
  · rw [if_neg hg] at hsome
    cases hsome

/-- Shape of the violations produced by the toolchain scan. -/
theorem toolchainScan_mem (policy : Policy) (prop : Proposal) (v : Violation)
    (hv : v ∈ toolchainScan policy prop) :
    ∃ rule ∈ policy.toolchain.rules,
      v.violation_type = ViolationType.forbiddenToolchain rule.tool rule.requires := by
  unfold toolchainScan at hv
  obtain ⟨rule, hrule, hsome⟩ := List.mem_filterMap.mp hv
  by_cases hg : ((content_has_markers prop.content rule.tool_markers ||
        files_have_markers prop.files_affected rule.tool_markers) &&
      !(content_has_markers prop.content rule.requires_markers ||
        files_have_markers prop.files_affected rule.requires_markers)) = true
  · simp only [hg, if_true] at hsome
    cases hsome
    exact ⟨rule, hrule, rfl⟩
  · simp only [hg, Bool.false_eq_true, if_false] at hsome
    cases hsome

/-- Shape of the violations produced by the pattern scan. -/
theorem patternGo_mem (engine : RegexEngine) (prop : Proposal) :
    ∀ (pats : List ForbiddenPattern) (patv : List Violation),
      patternGo engine prop pats = Except.ok patv →
      ∀ v ∈ patv, ∃ p ∈ pats,
        v.violation_type =
          ViolationType.forbiddenPattern p.name ((prop.files_affected.head?).getD "") := by
  intro pats
  induction pats with
  | nil =>
    intro patv hp v hv
    simp only [patternGo, Except.ok.injEq] at hp
    subst hp
    cases hv
  | cons p rest ih =>
    intro patv hp v hv
    cases hc : engine.compile p.regex with
    | error e => simp only [patternGo, hc] at hp; cases hp
    | ok m =>
      simp only [patternGo, hc] at hp
      by_cases hm : m prop.content = true
      · rw [if_pos hm] at hp
        cases hgo : patternGo engine prop rest with
        | error e => rw [hgo] at hp; simp [Except.map] at hp
        | ok vs =>
          rw [hgo] at hp
          simp only [Except.map, Except.ok.injEq] at hp
          subst hp
          cases List.mem_cons.mp hv with
          | inl hveq => subst hveq; exact ⟨p, List.mem_cons_self p rest, rfl⟩
          | inr hvrest =>
            obtain ⟨p2, hp2, hrest⟩ := ih vs hgo v hvrest
            exact ⟨p2, List.mem_cons_of_mem p hp2, hrest⟩
      · rw [if_neg hm] at hp
        obtain ⟨p2, hp2, hrest⟩ := ih patv hp v hv
        exact ⟨p2, List.mem_cons_of_mem p hp2, hrest⟩

/-- Evaluation returned by check_proposal on the TypeScript file placed
under the salt/ exception path. -/
def c5CtrEval : OracleEvaluation :=
  match check_proposal noMatchEngine rsr_default saltTsProp with
  | some (Except.ok e) => e
  | _ =>
    { proposal_id := 0, verdict := PolicyVerdict.compliant, rules_checked := [],
      violations := [], concerns := [] }

/-- Claim C5, counterexample: every affected file of saltTsProp contains
an allowed path prefix of an exception rule of the default policy
(salt/util.ts contains salt/), yet the returned evaluation carries a
ForbiddenLanguage violation, because the exception rule is for python
and the hit is for typescript. -/
theorem c5_counterexample :
    (rsr_default.languages.exceptions.any (fun exc =>
        saltTsProp.files_affected.all (fun f =>
          exc.allowed_paths.any (fun a => containsSub f.data a.data)))) = true ∧
    check_proposal noMatchEngine rsr_default saltTsProp = some (Except.ok c5CtrEval) ∧
    (ViolationType.forbiddenLanguage "typescript" "salt/util.ts"
        "File extension matches forbidden language: typescript") ∈
      c5CtrEval.violations.map Violation.violation_type := by
  refine ⟨by decide, by decide, by decide⟩

/-- Claim C5, amended: for every proposal with a nonempty affected-file
list in which every affected file contains an allowed path of an
exception rule for language L (matched case-insensitively), a
forbidden-language hit for L, whether by content marker or by file
extension, never produces a ForbiddenLanguage violation for L in the
returned evaluation. -/
theorem c5_exception_precedence (engine : RegexEngine) (policy : Policy)
    (prop : Proposal) (L : String) (eval : OracleEvaluation)
    (hne : prop.files_affected ≠ [])
    (hcov : ExcCovers policy prop.files_affected L)
    (h : check_proposal engine policy prop = some (Except.ok eval)) :
    ∀ v ∈ eval.violations, ∀ f ctx,
      v.violation_type ≠ ViolationType.forbiddenLanguage L f ctx := by
  unfold check_proposal at h
  cases hc : contentLanguageScan policy prop with
  | none => rw [hc] at h; cases h
  | some cv =>
    rw [hc] at h
    cases hp : patternScan engine policy prop with
    | error e => rw [hp] at h; simp at h
    | ok patv =>
      rw [hp] at h
      simp only [Option.some.injEq, Except.ok.injEq] at h
      subst h
      intro v hv f ctx heq
      dsimp only at hv
      rcases List.mem_append.mp hv with hv3 | hv4
      rcases List.mem_append.mp hv3 with hv2 | hvt
      rcases List.mem_append.mp hv2 with hvc | hvf
      · -- content scan
        obtain ⟨lang, _, ⟨ctx0, hvt0⟩, hexcf⟩ :=
          contentGo_mem policy prop policy.languages.forbidden cv hc v hvc
        rw [heq] at hvt0
        injection hvt0 with hL _ _
        rw [← hL] at hexcf
        rw [check_exception_all_of_covers policy prop.files_affected L hcov hne] at hexcf
        cases hexcf
      · -- file path scan
        obtain ⟨file, hfile, lang, _, hvt0, hexcf⟩ := filePathScan_mem policy prop v hvf
        rw [heq] at hvt0
        injection hvt0 with hL _ _
        rw [← hL] at hexcf
        rw [check_exception_single_of_covers policy prop.files_affected L hcov file hfile]
          at hexcf
        cases hexcf
      · -- toolchain scan
        obtain ⟨rule, _, hvt0⟩ := toolchainScan_mem policy prop v hvt
        rw [heq] at hvt0
        cases hvt0
      · -- pattern scan
        obtain ⟨p, _, hvt0⟩ :=
          patternGo_mem engine prop policy.patterns.forbidden_patterns patv hp v hv4
        rw [heq] at hvt0
        cases hvt0

/-- Evaluation returned by check_proposal on the python file under the
salt/ exception path. -/
def c5Eval : OracleEvaluation :=
  match check_proposal noMatchEngine rsr_default saltProp with
  | some (Except.ok e) => e
  | _ =>
    { proposal_id := 0, verdict := PolicyVerdict.hardViolation
        (ViolationType.securityViolation ""), rules_checked := [],
      violations := [], concerns := [] }

/-- Witness for c5_exception_precedence at the concrete python proposal
under salt/. -/
theorem c5_exception_precedence_witness :
    saltProp.files_affected ≠ [] ∧
    ExcCovers rsr_default saltProp.files_affected "python" ∧
    check_proposal noMatchEngine rsr_default saltProp = some (Except.ok c5Eval) ∧
    (∀ v ∈ c5Eval.violations, ∀ f ctx,
      v.violation_type ≠ ViolationType.forbiddenLanguage "python" f ctx) :=
  ⟨by decide, by unfold ExcCovers; decide, by decide,
    c5_exception_precedence noMatchEngine rsr_default saltProp "python" c5Eval
      (by decide) (by unfold ExcCovers; decide) (by decide)⟩

/-- Pattern-rule lists that agree on everything except the file_types
field: same length, and pointwise equal name, regex and reason. -/
def samePatternsExceptFT : List ForbiddenPattern → List ForbiddenPattern → Bool
  | [], [] => true
  | p :: ps, q :: qs =>
    decide (p.name = q.name) && decide (p.regex = q.regex) &&
      decide (p.reason = q.reason) && samePatternsExceptFT ps qs
  | _, _ => false

/-- Policies identical except for the file_types lists of their pattern
rules. -/
def sameExceptFileTypes (p q : Policy) : Bool :=
  decide (p.name = q.name) && decide (p.languages = q.languages) &&
    decide (p.toolchain = q.toolchain) && decide (p.enforcement = q.enforcement) &&
    samePatternsExceptFT p.patterns.forbidden_patterns q.patterns.forbidden_patterns

/-- Exception checking only reads the language section of the policy. -/
theorem check_exception_eq_of_languages {p q : Policy}
    (hL : p.languages = q.languages) : check_exception p = check_exception q := by
  funext files language
  unfold check_exception
  rw [hL]

/-- The content-language scan loop only reads the language section. -/
theorem contentGo_eq_of_languages {p q : Policy} (prop : Proposal)
    (hL : p.languages = q.languages) :
    ∀ langs, contentGo p prop langs = contentGo q prop langs := by
  intro langs
  induction langs with
  | nil => rfl
  | cons lang rest ih =>
    simp only [contentGo, ih, check_exception_eq_of_languages hL]

/-- The pattern scan loop only reads the name and regex of each rule. -/
theorem patternGo_eq_of_same (engine : RegexEngine) (prop : Proposal) :
    ∀ ps qs, samePatternsExceptFT ps qs = true →
      patternGo engine prop ps = patternGo engine prop qs := by
  intro ps
  induction ps with
  | nil =>
    intro qs hq
    cases qs with
    | nil => rfl
    | cons q qs2 => simp [samePatternsExceptFT] at hq
  | cons p ps2 ih =>
    intro qs hq
    cases qs with
    | nil => simp [samePatternsExceptFT] at hq
    | cons q qs2 =>
      simp only [samePatternsExceptFT, Bool.and_eq_true, decide_eq_true_eq] at hq
      obtain ⟨⟨⟨hn, hr⟩, _⟩, hrest⟩ := hq
      simp only [patternGo, hn, hr, ih qs2 hrest]

/-- Claim C10: the file_types field of pattern rules has no effect on
evaluation: two policies identical except for those lists produce
identical check_proposal results (verdict, violations and concerns
included) for every engine and proposal. -/
theorem c10_file_types_unused (p q : Policy) (hpq : sameExceptFileTypes p q = true)
    (engine : RegexEngine) (prop : Proposal) :
    check_proposal engine p prop = check_proposal engine q prop := by
  simp only [sameExceptFileTypes, Bool.and_eq_true, decide_eq_true_eq] at hpq
  obtain ⟨⟨⟨⟨_, hL⟩, hT⟩, _⟩, hP⟩ := hpq
  have hce : contentLanguageScan p prop = contentLanguageScan q prop := by
    unfold contentLanguageScan
    rw [contentGo_eq_of_languages prop hL, hL]
  have hfp : filePathScan p prop = filePathScan q prop := by
    unfold filePathScan
    rw [check_exception_eq_of_languages hL, hL]
  have htc : toolchainScan p prop = toolchainScan q prop := by
    unfold toolchainScan
    rw [hT]
  have ht2 : tier2Scan p prop = tier2Scan q prop := by
    unfold tier2Scan
    rw [hL]
  have hps : patternScan engine p prop = patternScan engine q prop := by
    unfold patternScan
    exact patternGo_eq_of_same engine prop _ _ hP
  unfold check_proposal
  rw [hce, hfp, htc, ht2, hps]

/-- The default policy with the file_types list of its pattern rule
emptied. -/
def rsrNoFileTypes : Policy :=
  { rsr_default with
    patterns :=
      { forbidden_patterns :=
          [ { name := "hardcoded_secrets", regex := secretsRegexText,
              file_types := [], reason := "Hardcoded secrets detected" } ] } }

/-- Witness for c10_file_types_unused: the default policy and its
file_types-stripped variant give the same result on the TypeScript
proposal. -/
theorem c10_file_types_unused_witness :
    sameExceptFileTypes rsr_default rsrNoFileTypes = true ∧
    check_proposal noMatchEngine rsr_default tsProp =
      check_proposal noMatchEngine rsrNoFileTypes tsProp :=
  ⟨by simp [sameExceptFileTypes, samePatternsExceptFT, rsr_default, rsrNoFileTypes],
    c10_file_types_unused rsr_default rsrNoFileTypes
      (by simp [sameExceptFileTypes, samePatternsExceptFT, rsr_default, rsrNoFileTypes])
      noMatchEngine tsProp⟩

/-- Helper: presence of a guarded option value. -/
theorem isSome_ite {α : Type} (p : Prop) [Decidable p] (x : α) :
    ((if p then some x else none).isSome = true) ↔ p := by
  by_cases h : p <;> simp [h]

/-- Names attached to regression entries. -/
theorem regEntry_name (rs : List BaselineResult) (c : TestResult) (a : Regression)
    (h : regEntry rs c = some a) : a.test_name = c.name := by
  unfold regEntry at h
  cases hl : baselineLookup rs c.name with
  | none => rw [hl] at h; cases h
  | some br =>
    rw [hl] at h
    simp only [Option.some_bind] at h
    by_cases hg : ((br.verdict == c.expected_verdict) && !c.passed) = true
    · rw [if_pos hg] at h; cases h; rfl
    · rw [if_neg hg] at h; cases h

/-- Names attached to improvement entries. -/
theorem impEntry_name (rs : List BaselineResult) (c : TestResult) (a : Improvement)
    (h : impEntry rs c = some a) : a.test_name = c.name := by
  unfold impEntry at h
  cases hl : baselineLookup rs c.name with
  | none => rw [hl] at h; cases h
  | some br =>
    rw [hl] at h
    simp only [Option.some_bind] at h
    by_cases hg : (!((br.verdict == c.expected_verdict) && !c.passed) &&
        (!(br.verdict == c.expected_verdict) && c.passed)) = true
    · rw [if_pos hg] at h; cases h; rfl
    · rw [if_neg hg] at h; cases h

/-- Names attached to behavior-change entries. -/
theorem bcEntry_name (rs : List BaselineResult) (c : TestResult) (a : BehaviorChange)
    (h : bcEntry rs c = some a) : a.test_name = c.name := by
  unfold bcEntry at h
  cases hl : baselineLookup rs c.name with
  | none => rw [hl] at h; cases h
  | some br =>
    rw [hl] at h
    simp only [Option.some_bind] at h
    by_cases hg : (!((br.verdict == c.expected_verdict) && !c.passed) &&
        !(!(br.verdict == c.expected_verdict) && c.passed) &&
        !(br.verdict == c.actual_verdict)) = true
    · rw [if_pos hg] at h; cases h; rfl
    · rw [if_neg hg] at h; cases h

/-- Names attached to new-test entries. -/
theorem newEntry_name (rs : List BaselineResult) (c : TestResult) (s : String)
    (h : newEntry rs c = some s) : s = c.name := by
  unfold newEntry at h
  by_cases hg : (baselineLookup rs c.name).isNone = true
  · rw [if_pos hg] at h; cases h; rfl
  · rw [if_neg hg] at h; cases h

/-- Membership of a current name in the mapped names of a per-result
filterMap output, under name-distinctness. -/
theorem mem_map_filterMap_name {α : Type} (cur : List TestResult) (g : TestResult → Option α)
    (nm : α → String) (hg : ∀ c a, g c = some a → nm a = c.name)
    (hnd : (cur.map TestResult.name).Nodup) {c : TestResult} (hcur : c ∈ cur) :
    (c.name ∈ (cur.filterMap g).map nm) ↔ (g c).isSome = true := by
  constructor
  · intro hmem
    obtain ⟨a, ha, hna⟩ := List.mem_map.mp hmem
    obtain ⟨c2, hc2, hg2⟩ := List.mem_filterMap.mp ha
    have hname : c2.name = c.name := by rw [← hg c2 a hg2, hna]
    have hcc : c2 = c := List.inj_on_of_nodup_map hnd hc2 hcur hname
    rw [← hcc, hg2]
    rfl
  · intro hs
    obtain ⟨a, ha⟩ := Option.isSome_iff_exists.mp hs
    exact List.mem_map.mpr ⟨a, List.mem_filterMap.mpr ⟨c, hcur, ha⟩, hg c a ha⟩

/-- Membership of a current name in a name-valued filterMap output, under
name-distinctness. -/
theorem mem_filterMap_name (cur : List TestResult) (g : TestResult → Option String)
    (hg : ∀ c s, g c = some s → s = c.name)
    (hnd : (cur.map TestResult.name).Nodup) {c : TestResult} (hcur : c ∈ cur) :
    (c.name ∈ cur.filterMap g) ↔ (g c).isSome = true := by
  constructor
  · intro hmem
    obtain ⟨c2, hc2, hg2⟩ := List.mem_filterMap.mp hmem
    have hname : c2.name = c.name := (hg c2 c.name hg2).symm
    have hcc : c2 = c := List.inj_on_of_nodup_map hnd hc2 hcur hname
    rw [← hcc, hg2]
    rfl
  · intro hs
    obtain ⟨s, hscur⟩ := Option.isSome_iff_exists.mp hs
    have : s = c.name := hg c s hscur
    subst this
    exact List.mem_filterMap.mpr ⟨c, hcur, hscur⟩

/-- Regression guard, semantically: baseline passed against the current
expectation and the current run failed. -/
theorem regEntry_isSome (rs : List BaselineResult) (c : TestResult) (br : BaselineResult)
    (hl : baselineLookup rs c.name = some br) :
    ((regEntry rs c).isSome = true) ↔
      (br.verdict = c.expected_verdict ∧ c.passed = false) := by
  unfold regEntry
  rw [hl]
  simp only [Option.some_bind]
  rw [isSome_ite]
  simp [Bool.and_eq_true, Bool.not_eq_true', beq_iff_eq]

/-- Improvement guard, semantically: not a regression, baseline failed
against the current expectation, and the current run passed. -/
theorem impEntry_isSome (rs : List BaselineResult) (c : TestResult) (br : BaselineResult)
    (hl : baselineLookup rs c.name = some br) :
    ((impEntry rs c).isSome = true) ↔
      (br.verdict ≠ c.expected_verdict ∧ c.passed = true) := by
  unfold impEntry
  rw [hl]
  simp only [Option.some_bind]
  rw [isSome_ite]
  cases hbp : br.verdict == c.expected_verdict <;> cases hcp : c.passed <;>
    simp_all [beq_iff_eq, beq_eq_false_iff_ne]

/-- Behavior-change guard, semantically: neither regression nor
improvement, and the verdict changed. -/
theorem bcEntry_isSome (rs : List BaselineResult) (c : TestResult) (br : BaselineResult)
    (hl : baselineLookup rs c.name = some br) :
    ((bcEntry rs c).isSome = true) ↔
      (¬(br.verdict = c.expected_verdict ∧ c.passed = false) ∧
       ¬(br.verdict ≠ c.expected_verdict ∧ c.passed = true) ∧
       br.verdict ≠ c.actual_verdict) := by
  unfold bcEntry
  rw [hl]
  simp only [Option.some_bind]
  rw [isSome_ite]
  cases hbp : br.verdict == c.expected_verdict <;> cases hcp : c.passed <;>
    cases hveq : br.verdict == c.actual_verdict <;>
    simp_all [beq_iff_eq, beq_eq_false_iff_ne]

/-- Each current result falls into exactly one of the five classes. -/
theorem class_sum (rs : List BaselineResult) (c : TestResult) :
    (regEntry rs c).isSome.toNat + (impEntry rs c).isSome.toNat +
      (bcEntry rs c).isSome.toNat + (stableFlag rs c).toNat +
      (newEntry rs c).isSome.toNat = 1 := by
  unfold regEntry impEntry bcEntry stableFlag newEntry
  cases hl : baselineLookup rs c.name with
  | none => simp [hl]
  | some br =>
    simp only [hl, Option.some_bind, Option.isNone_some]
    cases hbp : br.verdict == c.expected_verdict <;> cases hcp : c.passed <;>
      cases hveq : br.verdict == c.actual_verdict <;>
      simp [hbp, hcp, hveq]

/-- The five classes of one comparison pass account for every current
result exactly once. -/
theorem compare_count (rs : List BaselineResult) :
    ∀ cur : List TestResult,
      (cur.filterMap (regEntry rs)).length + (cur.filterMap (impEntry rs)).length +
        (cur.filterMap (bcEntry rs)).length + cur.countP (stableFlag rs) +
        (cur.filterMap (newEntry rs)).length = cur.length := by
  intro cur
  induction cur with
  | nil => rfl
  | cons c t ih =>
    have hone := class_sum rs c
    rw [List.filterMap_cons, List.filterMap_cons, List.filterMap_cons, List.countP_cons,
      List.filterMap_cons]
    cases hr : regEntry rs c <;> cases hi : impEntry rs c <;> cases hb2 : bcEntry rs c <;>
      cases hs : stableFlag rs c <;> cases hn : newEntry rs c <;>
      simp [hr, hi, hb2, hs, hn] at hone ⊢ <;> omega

/-- Removed-test membership: a name is removed exactly when it names a
baseline entry and no current result. -/
theorem removed_mem (b : RegressionBaseline) (cur : List TestResult) (n : String) :
    (n ∈ b.results.filterMap (fun br =>
        if cur.any (fun c => c.name == br.name) then none else some br.name)) ↔
      ((∃ br ∈ b.results, br.name = n) ∧ ¬(∃ c ∈ cur, c.name = n)) := by
  constructor
  · intro h
    obtain ⟨br, hbr, hsome⟩ := List.mem_filterMap.mp h
    by_cases ha : cur.any (fun c => c.name == br.name) = true
    · rw [if_pos ha] at hsome; cases hsome
    · rw [if_neg ha] at hsome
      injection hsome with hn
      subst hn
      refine ⟨⟨br, hbr, rfl⟩, ?_⟩
      rintro ⟨c, hc, hcn⟩
      exact ha (List.any_eq_true.mpr ⟨c, hc, by rw [beq_iff_eq]; exact hcn⟩)
  · rintro ⟨⟨br, hbr, hn⟩, hnc⟩
    refine List.mem_filterMap.mpr ⟨br, hbr, ?_⟩
    rw [if_neg, hn]
    intro ha
    obtain ⟨c, hc, hcn⟩ := List.any_eq_true.mp ha
    rw [beq_iff_eq] at hcn
    exact hnc ⟨c, hc, by rw [hcn, hn]⟩

/-- Property of claim C8 for a comparison report: for each current result
with a baseline entry of the same name, membership in the regression,
improvement and behavior-change lists is characterised by the
comparison-time conditions (baseline passed means
baseline.verdict = current.expected_verdict), and the result is neither
new nor removed; a current result without a baseline entry is exactly
new; removed names are exactly the baseline names absent from the
current run; and the class sizes sum to the number of current results,
so the classification is a disjoint, total partition. -/
def comparePartitioned (b : RegressionBaseline) (cur : List TestResult)
    (r : RegressionReport) : Prop :=
  (∀ c ∈ cur, ∀ br, baselineLookup b.results c.name = some br →
    ((c.name ∈ r.regressions.map Regression.test_name ↔
        (br.verdict = c.expected_verdict ∧ c.passed = false)) ∧
     (c.name ∈ r.improvements.map Improvement.test_name ↔
        (br.verdict ≠ c.expected_verdict ∧ c.passed = true)) ∧
     (c.name ∈ r.behavior_changes.map BehaviorChange.test_name ↔
        (¬(br.verdict = c.expected_verdict ∧ c.passed = false) ∧
         ¬(br.verdict ≠ c.expected_verdict ∧ c.passed = true) ∧
         br.verdict ≠ c.actual_verdict)) ∧
     c.name ∉ r.new_tests ∧ c.name ∉ r.removed_tests)) ∧
  (∀ c ∈ cur, baselineLookup b.results c.name = none →
    (c.name ∈ r.new_tests ∧
     c.name ∉ r.regressions.map Regression.test_name ∧
     c.name ∉ r.improvements.map Improvement.test_name ∧
     c.name ∉ r.behavior_changes.map BehaviorChange.test_name ∧
     c.name ∉ r.removed_tests)) ∧
  (∀ n, n ∈ r.removed_tests ↔
    ((∃ br ∈ b.results, br.name = n) ∧ ¬(∃ c ∈ cur, c.name = n))) ∧
  (r.regressions.length + r.improvements.length + r.behavior_changes.length +
      r.stable_count + r.new_tests.length = cur.length) ∧
  r.total_compared = cur.length

/-- Claim C8: with a loaded baseline, compare classifies each compared
name into exactly one of regression, improvement, behavior change,
stable, new and removed, where a baseline entry counts as passed exactly
when its verdict equals the current expectation; with no baseline, every
current result is new and no regression is reported. -/
theorem c8_compare_partition (b : RegressionBaseline) (cur : List TestResult)
    (hnd : (cur.map TestResult.name).Nodup) :
    comparePartitioned b cur
      (RegressionHarness.compare { baseline := some b, current_results := cur }) ∧
    (∀ cur2 : List TestResult,
      (RegressionHarness.compare
          { baseline := none, current_results := cur2 }).new_tests =
        cur2.map (fun r => r.name) ∧
      (RegressionHarness.compare
          { baseline := none, current_results := cur2 }).regressions = []) := by
  constructor
  · unfold comparePartitioned RegressionHarness.compare
    dsimp only
    refine ⟨?_, ?_, removed_mem b cur, compare_count b.results cur, rfl⟩
    · intro c hcur br hl
      refine ⟨?_, ?_, ?_, ?_, ?_⟩
      · exact (mem_map_filterMap_name cur (regEntry b.results) Regression.test_name
          (regEntry_name b.results) hnd hcur).trans (regEntry_isSome b.results c br hl)
      · exact (mem_map_filterMap_name cur (impEntry b.results) Improvement.test_name
          (impEntry_name b.results) hnd hcur).trans (impEntry_isSome b.results c br hl)
      · exact (mem_map_filterMap_name cur (bcEntry b.results) BehaviorChange.test_name
          (bcEntry_name b.results) hnd hcur).trans (bcEntry_isSome b.results c br hl)
      · intro hmem
        have hs := (mem_filterMap_name cur (newEntry b.results)
          (newEntry_name b.results) hnd hcur).mp hmem
        simp [newEntry, hl] at hs
      · intro hmem
        obtain ⟨_, hno⟩ := (removed_mem b cur c.name).mp hmem
        exact hno ⟨c, hcur, rfl⟩
    · intro c hcur hl
      refine ⟨?_, ?_, ?_, ?_, ?_⟩
      · rw [mem_filterMap_name cur (newEntry b.results) (newEntry_name b.results) hnd hcur]
        simp [newEntry, hl]
      · intro hmem
        have hs := (mem_map_filterMap_name cur (regEntry b.results) Regression.test_name
          (regEntry_name b.results) hnd hcur).mp hmem
        simp [regEntry, hl] at hs
      · intro hmem
        have hs := (mem_map_filterMap_name cur (impEntry b.results) Improvement.test_name
          (impEntry_name b.results) hnd hcur).mp hmem
        simp [impEntry, hl] at hs
      · intro hmem
        have hs := (mem_map_filterMap_name cur (bcEntry b.results) BehaviorChange.test_name
          (bcEntry_name b.results) hnd hcur).mp hmem
        simp [bcEntry, hl] at hs
      · intro hmem
        obtain ⟨_, hno⟩ := (removed_mem b cur c.name).mp hmem
        exact hno ⟨c, hcur, rfl⟩
  · intro cur2
    exact ⟨rfl, rfl⟩

/-- Concrete baseline with four recorded results. -/
def b0 : RegressionBaseline :=
  { git_commit := some "abc123"
    results :=
      [ { name := "t1", verdict := Verdict.allow, category := none, code := none },
        { name := "t2", verdict := Verdict.block, category := none, code := none },
        { name := "t3", verdict := Verdict.allow, category := none, code := none },
        { name := "t5", verdict := Verdict.warn, category := none, code := none } ] }

/-- Concrete current run: t1 regresses, t2 improves, t3 is stable, t4 is
new, and t5 is removed. -/
def cur0 : List TestResult :=
  [ { name := "t1", passed := false, actual_verdict := Verdict.block,
      expected_verdict := Verdict.allow, actual_category := none,
      error := some "expected Allow, got Block" },
    { name := "t2", passed := true, actual_verdict := Verdict.allow,
      expected_verdict := Verdict.allow, actual_category := none, error := none },
    { name := "t3", passed := true, actual_verdict := Verdict.allow,
      expected_verdict := Verdict.allow, actual_category := none, error := none },
    { name := "t4", passed := true, actual_verdict := Verdict.allow,
      expected_verdict := Verdict.allow, actual_category := none, error := none } ]

/-- Witness for c8_compare_partition at the concrete baseline and run. -/
theorem c8_compare_partition_witness :
    (cur0.map TestResult.name).Nodup ∧
    (comparePartitioned b0 cur0
        (RegressionHarness.compare { baseline := some b0, current_results := cur0 }) ∧
      (∀ cur2 : List TestResult,
        (RegressionHarness.compare
            { baseline := none, current_results := cur2 }).new_tests =
          cur2.map (fun r => r.name) ∧
        (RegressionHarness.compare
            { baseline := none, current_results := cur2 }).regressions = [])) :=
  ⟨by decide, c8_compare_partition b0 cur0 (by decide)⟩
